import Mathlib

/-!
Shallow embedding of the Fotito photo-capture service (src/photo.py).

The database (SQLAlchemy models `DriveConfig`, `Link`, `Photo`) is modelled as
explicit lists of records; each Flask handler becomes a pure function from the
request data and the database state to a response, the successor state, and a
trace of outbound provider calls.  External effects whose outcome the handler
merely observes (Google Drive authentication, the two upload adapters, the two
remote-delete calls) are supplied as oracle fields of an `Env` record, mirroring
the module-level flags `GOOGLE_DRIVE_AVAILABLE`, `CLOUDINARY_AVAILABLE` and
`IS_LOCAL_DEV` and the try/except blocks around each adapter call.
-/

namespace Fotito

/-- Python truthiness of an optional string (`None` and `""` are falsy). -/
def optTruthy (o : Option String) : Option String :=
  match o with
  | some s => if s = "" then none else some s
  | none => none

/-- Python truthiness test for an optional string, as a Bool. -/
def pyTruthy (o : Option String) : Bool :=
  (optTruthy o).isSome

/-- The JSON dict stored in `Photo.drive_info`.  The handlers only ever build
the shapes below: the initial `{}`, the two `{'error': ..., 'status': ...}`
dicts, and the success payloads of `upload_to_drive` / `upload_to_cloudinary`. -/
inductive DriveInfo where
  | emptyInfo
  | skipped (error : String)
  | failed (error : String)
  | uploadedDrive (drive_id : String) (name : String) (view_link : String)
  | uploadedCloudinary (cloudinary_id : String) (name : String)
      (view_link : String) (thumbnail : String)
deriving DecidableEq, Repr

/-- `drive_info.get('drive_id')`. -/
def DriveInfo.driveId : DriveInfo → Option String
  | .uploadedDrive i _ _ => some i
  | _ => none

/-- `drive_info.get('cloudinary_id')`. -/
def DriveInfo.cloudinaryId : DriveInfo → Option String
  | .uploadedCloudinary i _ _ _ => some i
  | _ => none

/-- `drive_info['status'] == 'failed'`. -/
def DriveInfo.isFailed : DriveInfo → Bool
  | .failed _ => true
  | _ => false

/-- `drive_info['status'] == 'skipped'`. -/
def DriveInfo.isSkipped : DriveInfo → Bool
  | .skipped _ => true
  | _ => false

/-- A row of the `drive_config` table.  The service-account JSON document is
only ever handed to `get_drive_service` (an oracle here), so just its presence
is recorded. -/
structure DriveConfig where
  id : String
  provider : String
  has_service_account_json : Bool
  folder_id : Option String
  user_email : Option String
  cloudinary_cloud_name : Option String
  cloudinary_api_key : Option String
  cloudinary_api_secret : Option String
  cloudinary_folder : Option String
deriving DecidableEq, Repr

/-- A row of the `link` table. -/
structure Link where
  id : String
  name : String
  destination_url : String
  clicks : Nat
  photos_captured : Nat
  last_clicked_at : Option Nat
  drive_config_id : Option String
deriving DecidableEq, Repr

/-- A row of the `photo` table.  Timestamps are abstract ticks (`Nat`). -/
structure Photo where
  id : String
  link_id : String
  filename : String
  local_path : Option String
  timestamp : Nat
  ip_address : String
  user_agent : String
  screen_resolution : String
  destination_url : String
  drive_config_id : Option String
  drive_info : DriveInfo
deriving DecidableEq, Repr

/-- The relational store. -/
structure DB where
  configs : List DriveConfig
  links : List Link
  photos : List Photo
deriving DecidableEq, Repr

def DB.empty : DB := ⟨[], [], []⟩

/-- `DriveConfig.query.get(cid)`. -/
def getConfig (db : DB) (cid : String) : Option DriveConfig :=
  db.configs.find? (fun c => c.id = cid)

/-- Result of a provider adapter call: the returned payload or the text of the
raised exception. -/
inductive AdapterOutcome where
  | ok (id : String) (name : String) (viewLink : String) (thumbnail : String)
  | err (msg : String)
deriving DecidableEq, Repr

/-- Deployment flags and oracles for the outbound provider calls.  The remote
delete calls are wrapped in try/except in the source and their outcome is only
logged, so no oracle is needed for them. -/
structure Env where
  googleDriveAvailable : Bool
  cloudinaryAvailable : Bool
  isLocalDev : Bool
  /-- whether `get_drive_service` returns a service (it catches internally and
  returns `None` on any credential error). -/
  driveServiceOk : Bool
  driveUpload : AdapterOutcome
  cloudinaryUpload : AdapterOutcome
deriving DecidableEq, Repr

/-- An outbound call to a storage provider. -/
inductive ProviderCall where
  | driveAuth
  | driveUpload (filename : String)
  | cloudinaryUpload (filename : String)
  | driveDelete (remoteId : String)
  | cloudinaryDelete (remoteId : String)
deriving DecidableEq, Repr

/-- A JSON response together with its HTTP status code. -/
structure Resp where
  status : Nat
  success : Bool
  error : Option String
  filename : Option String
  drive_info : Option DriveInfo
  photo_id : Option String
  link_id : Option String
  local_path : Option String
deriving DecidableEq, Repr

def errResp (code : Nat) (msg : String) : Resp :=
  ⟨code, false, some msg, none, none, none, none, none⟩

def okMsgResp : Resp :=
  ⟨200, true, none, none, none, none, none, none⟩

/-! ## The capture page, `GET /p/<link_id>` (`photo_capture`) -/

/-- Response of `photo_capture`: the rendered capture page (the template embeds
the percent-encoded destination URL and the link id; rendering itself is
presentation and out of scope) or the 404 page. -/
inductive CaptureResp where
  | page (destination_url : String) (link_id : String)
  | notFound
deriving DecidableEq, Repr

/-- `photo_capture` (src/photo.py lines 1740-1762): resolve the link, render the
capture page, or return 404.  The handler performs no database writes, so the
state is returned unchanged. -/
def photo_capture (db : DB) (lid : String) : CaptureResp × DB :=
  match db.links.find? (fun l => l.id = lid) with
  | none => (.notFound, db)
  | some l => (.page l.destination_url l.id, db)

/-! ## `POST /save_discrete_photo` (`save_discrete_photo`) -/

/-- The multipart form fields and headers of a `POST /save_discrete_photo`
request.  `timestamp_field` is the client-supplied `timestamp` form field. -/
structure SaveReq where
  hasPhotoFile : Bool
  photoFilename : Option String
  link_id : Option String
  timestamp_field : Option String
  user_agent_field : Option String
  screen_resolution_field : Option String
  xDestination : Option String
  xForwardedFor : Option String
  remoteAddr : String
  userAgentHeader : Option String
deriving DecidableEq, Repr

/-- Python `str.strip()`: drop whitespace from both ends (structural
recursion over the character list, so that concrete states evaluate). -/
def pyStrip (s : String) : String :=
  String.mk (((s.data.dropWhile Char.isWhitespace).reverse.dropWhile
    Char.isWhitespace).reverse)

/-- Python `str.startswith(pre)`. -/
def charsStart : List Char → List Char → Bool
  | [], _ => true
  | _ :: _, [] => false
  | a :: as, b :: bs => a = b && charsStart as bs

def strStarts (s pre : String) : Bool := charsStart pre.data s.data

/-- `s.split(',')[0]`: the characters before the first comma. -/
def takeUntilComma (s : String) : String :=
  String.mk (s.data.takeWhile (fun c => !(c = ',')))

/-- `request.headers.get('X-Forwarded-For', request.remote_addr).split(',')[0].strip()`. -/
def clientIp (xff : Option String) (remoteAddr : String) : String :=
  pyStrip (takeUntilComma (xff.getD remoteAddr))

/-- `re.sub(r'[^\w\.-]', '_', part)`. -/
def sanitizePart (s : String) : String :=
  String.mk (s.data.map (fun c =>
    if c.isAlphanum || c = '_' || c = '.' || c = '-' then c else '_'))

/-- The generated upload filename
`f"discrete_{timestamp}_{unique_id}_{link_id}_{sanitized}"`; the strftime
rendering of the timestamp is abstracted to the decimal tick. -/
def mkFilename (now : Nat) (uid lid : String) (orig : Option String) : String :=
  let origPart := match optTruthy orig with
    | some s => s
    | none => "photo.jpg"
  "discrete_" ++ toString now ++ "_" ++ uid ++ "_" ++ lid ++ "_" ++ sanitizePart origPart

def uploadFolder : String := "captured_photos"

/-- Outcome of the first configuration/authentication block of
`save_discrete_photo` (lines 1785-1810): the provisional `current_drive_info`,
whether a Drive service object was obtained, the resolved folder id, and the
provider calls made. -/
structure ResolveOut where
  info : DriveInfo
  serviceOk : Bool
  folderId : Option String
  calls : List ProviderCall
deriving DecidableEq, Repr

def resolveDriveService (env : Env) (db : DB) (link : Link) : ResolveOut :=
  match optTruthy link.drive_config_id with
  | none =>
    ⟨.skipped "No se seleccionó configuración de Drive.", false, none, []⟩
  | some cid =>
    match getConfig db cid with
    | some cfg =>
      if env.googleDriveAvailable then
        if env.driveServiceOk then ⟨.emptyInfo, true, cfg.folder_id, [.driveAuth]⟩
        else ⟨.failed "No se pudo autenticar con Drive.", false, cfg.folder_id, [.driveAuth]⟩
      else
        ⟨.skipped "Configuración de Drive no encontrada o librerías no disponibles.",
          false, none, []⟩
    | none =>
      ⟨.skipped "Configuración de Drive no encontrada o librerías no disponibles.",
        false, none, []⟩

/-- The provider upload block of `save_discrete_photo` (lines 1832-1866):
dispatch on the configuration's provider tag; any adapter exception is caught
and turned into a `failed` record. -/
def uploadBlock (env : Env) (db : DB) (link : Link) (filename : String)
    (svcOk : Bool) (folder : Option String) (info : DriveInfo) :
    DriveInfo × List ProviderCall :=
  match optTruthy link.drive_config_id with
  | none => (info, [])
  | some cid =>
    match getConfig db cid with
    | none => (info, [])
    | some cfg =>
      if cfg.provider = "drive" && svcOk && pyTruthy folder then
        match env.driveUpload with
        | .ok i n v _ => (.uploadedDrive i n v, [.driveUpload filename])
        | .err e => (.failed e, [.driveUpload filename])
      else if cfg.provider = "cloudinary" && env.cloudinaryAvailable then
        match env.cloudinaryUpload with
        | .ok i _ v t => (.uploadedCloudinary i filename v t, [.cloudinaryUpload filename])
        | .err e => (.failed e, [.cloudinaryUpload filename])
      else (info, [])

/-- The statistics update of lines 1890-1892: one more click, one more photo,
last-click time set to the request's processing time. -/
def bumpedLink (now : Nat) (l : Link) : Link :=
  { l with clicks := l.clicks + 1, photos_captured := l.photos_captured + 1,
           last_clicked_at := some now }

/-- Counter update applied to the owning link (lines 1890-1892). -/
def bumpLink (lid : String) (now : Nat) (l : Link) : Link :=
  if l.id = lid then bumpedLink now l else l

/-- Body of `save_discrete_photo` (lines 1764-1909), taking exactly the request
data the source reads.  `now` is the single `datetime.utcnow()` taken at line
1812, `uid` the generated `unique_id`, `pid` the generated `Photo.id`.  A
primary-key collision on `pid` surfaces as the IntegrityError → rollback → 500
path of the outer `except`. -/
def saveDiscreteCore (env : Env) (now : Nat) (uid pid : String) (db : DB)
    (hasPhotoFile : Bool) (photoFilename linkIdField : Option String)
    (uaField srField xDest xff : Option String) (remoteAddr : String)
    (uaHeader : Option String) : Resp × DB × List ProviderCall :=
  if hasPhotoFile then
    match optTruthy linkIdField with
    | none => (errResp 400 "No link ID provided", db, [])
    | some lid =>
      match db.links.find? (fun l => l.id = lid) with
      | none => (errResp 404 "Associated link not found", db, [])
      | some link =>
        let rs := resolveDriveService env db link
        let filename := mkFilename now uid lid photoFilename
        let ub := uploadBlock env db link filename rs.serviceOk rs.folderId rs.info
        let localPath := uploadFolder ++ "/" ++ filename
        let photo : Photo := {
          id := pid, link_id := lid, filename := filename,
          local_path := if env.isLocalDev then some localPath else none,
          timestamp := now,
          ip_address := clientIp xff remoteAddr,
          user_agent := uaField.getD (uaHeader.getD "unknown"),
          screen_resolution := srField.getD "unknown",
          destination_url := xDest.getD link.destination_url,
          drive_config_id := link.drive_config_id,
          drive_info := ub.1 }
        if db.photos.any (fun p => p.id = pid) then
          (errResp 500 "Internal server error", db, rs.calls ++ ub.2)
        else
          (⟨200, true, none, some filename, some ub.1, some pid, none,
             if env.isLocalDev then some localPath else none⟩,
           { db with
             links := db.links.map (bumpLink lid now),
             photos := db.photos ++ [photo] },
           rs.calls ++ ub.2)
  else (errResp 400 "No photo file provided", db, [])

/-- `save_discrete_photo` on a full request record.  The `timestamp` form field
is not passed on: the source never reads it. -/
def save_discrete_photo (env : Env) (now : Nat) (uid pid : String) (db : DB)
    (req : SaveReq) : Resp × DB × List ProviderCall :=
  saveDiscreteCore env now uid pid db req.hasPhotoFile req.photoFilename
    req.link_id req.user_agent_field req.screen_resolution_field
    req.xDestination req.xForwardedFor req.remoteAddr req.userAgentHeader

/-! ## `POST /create_photo_link` (`create_photo_link`) -/

structure CreateLinkReq where
  destination_url : Option String
  link_name : Option String
  drive_config_id : Option String
deriving DecidableEq, Repr

/-- `create_photo_link` (lines 1690-1738).  `newId` is the generated 8-char
link id; a primary-key collision surfaces as the rollback → 500 path. -/
def create_photo_link (db : DB) (req : CreateLinkReq) (newId : String) : Resp × DB :=
  match optTruthy req.destination_url with
  | none => (errResp 400 "URL de destino requerida", db)
  | some dest =>
    if strStarts dest "http://" || strStarts dest "https://" then
      if (match optTruthy req.drive_config_id with
          | some cid => (getConfig db cid).isNone
          | none => false) then
        (errResp 400 "La configuración de Drive no existe.", db)
      else if db.links.any (fun l => l.id = newId) then
        (errResp 500 "Internal server error", db)
      else
        (⟨200, true, none, none, none, none, some newId, none⟩,
         { db with links := db.links ++ [{
             id := newId,
             name := req.link_name.getD "Link sin nombre",
             destination_url := dest,
             clicks := 0, photos_captured := 0, last_clicked_at := none,
             drive_config_id := req.drive_config_id }] })
    else
      (errResp 400 "URL inválida. Debe comenzar con http:// o https://", db)

/-! ## `POST /save_drive_config` and `POST /delete_drive_config/<name>` -/

structure SaveConfigReq where
  config_name : Option String
  provider : Option String
  has_service_account_json : Bool
  service_account_json_is_dict : Bool
  folder_id : Option String
  user_email : Option String
  cloudinary_cloud_name : Option String
  cloudinary_api_key : Option String
  cloudinary_api_secret : Option String
  cloudinary_folder : Option String
deriving DecidableEq, Repr

/-- `save_drive_config` (lines 1609-1671). -/
def save_drive_config (db : DB) (req : SaveConfigReq) : Resp × DB :=
  let name := pyStrip (req.config_name.getD "")
  let provider := pyStrip (req.provider.getD "drive")
  if name = "" then (errResp 400 "El nombre de la configuración es requerido.", db)
  else if (getConfig db name).isSome then
    (errResp 400 "Ya existe una configuración con ese nombre.", db)
  else if provider = "drive" then
    let folderId := pyStrip (req.folder_id.getD "")
    if !req.has_service_account_json || folderId = "" then
      (errResp 400 "Para Google Drive, se requiere JSON de cuenta de servicio y folder ID.", db)
    else if !req.service_account_json_is_dict then
      (errResp 400 "El JSON de la cuenta de servicio no es un objeto válido.", db)
    else
      (okMsgResp, { db with configs := db.configs ++ [{
        id := name, provider := "drive", has_service_account_json := true,
        folder_id := some folderId,
        user_email := optTruthy (some (pyStrip (req.user_email.getD ""))),
        cloudinary_cloud_name := none, cloudinary_api_key := none,
        cloudinary_api_secret := none, cloudinary_folder := none }] })
  else if provider = "cloudinary" then
    let cloudName := pyStrip (req.cloudinary_cloud_name.getD "")
    let apiKey := pyStrip (req.cloudinary_api_key.getD "")
    let apiSecret := pyStrip (req.cloudinary_api_secret.getD "")
    let folder := pyStrip (req.cloudinary_folder.getD "")
    if cloudName = "" || apiKey = "" || apiSecret = "" then
      (errResp 400 "Para Cloudinary, se requiere cloud name, API key y API secret.", db)
    else
      (okMsgResp, { db with configs := db.configs ++ [{
        id := name, provider := "cloudinary", has_service_account_json := false,
        folder_id := none, user_email := none,
        cloudinary_cloud_name := some cloudName,
        cloudinary_api_key := some apiKey,
        cloudinary_api_secret := some apiSecret,
        cloudinary_folder := some (if folder = "" then "fotito" else folder) }] })
  else (errResp 400 "Proveedor no válido", db)

/-- `delete_drive_config` (lines 1673-1687).  Deleting the parent nulls out the
`drive_config_id` of the links loaded through the `links` backref (the ORM's
default de-association); `Photo.drive_config_id` has no reverse relationship
and is left dangling (the default SQLite deployment does not enforce foreign
keys). -/
def delete_drive_config (db : DB) (name : String) : Resp × DB :=
  if (getConfig db name).isSome then
    (okMsgResp,
     { db with
       configs := db.configs.filter (fun c => !(c.id = name)),
       links := db.links.map (fun l =>
         if l.drive_config_id = some name then { l with drive_config_id := none } else l) })
  else (errResp 404 "Configuración no encontrada.", db)

/-! ## `POST /delete_photo/<id>` and `POST /delete_link/<id>` -/

/-- The remote-deletion step shared (as duplicated code) by `delete_photo`
(lines 1951-1980) and `delete_link` (lines 2015-2040): look up the photo's
recorded configuration, and if the upload-result carries the matching remote
id and the provider library is present, call the provider.  Both the
authentication step and the delete call are inside try/except whose outcome is
only logged, so the calls are recorded but no outcome is consumed. -/
def remoteDeleteCalls (env : Env) (db : DB) (photo : Photo) : List ProviderCall :=
  match photo.drive_config_id.bind (fun cid => getConfig db cid) with
  | none => []
  | some cfg =>
    if photo.drive_info = DriveInfo.emptyInfo then []
    else if cfg.provider = "drive" then
      match photo.drive_info.driveId with
      | some rid =>
        if env.googleDriveAvailable then
          ProviderCall.driveAuth ::
            (if env.driveServiceOk then [ProviderCall.driveDelete rid] else [])
        else []
      | none => []
    else if cfg.provider = "cloudinary" then
      match photo.drive_info.cloudinaryId with
      | some rid => if env.cloudinaryAvailable then [ProviderCall.cloudinaryDelete rid] else []
      | none => []
    else []

/-- `delete_photo` (lines 1941-1997): best-effort remote deletion, then delete
the row.  The link's counters are not touched. -/
def delete_photo (env : Env) (db : DB) (pid : String) : Resp × DB × List ProviderCall :=
  match db.photos.find? (fun p => p.id = pid) with
  | none => (errResp 404 "Photo not found", db, [])
  | some photo =>
    (okMsgResp,
     { db with photos := db.photos.filter (fun p => !(p.id = pid)) },
     remoteDeleteCalls env db photo)

/-- `delete_link` (lines 2006-2055): best-effort remote deletion for each owned
photo, then delete the link; the `cascade="all, delete-orphan"` relationship
removes the owned photo rows. -/
def delete_link (env : Env) (db : DB) (lid : String) : Resp × DB × List ProviderCall :=
  match db.links.find? (fun l => l.id = lid) with
  | none => (errResp 404 "Link not found", db, [])
  | some _ =>
    (okMsgResp,
     { db with
       links := db.links.filter (fun l => !(l.id = lid)),
       photos := db.photos.filter (fun p => !(p.link_id = lid)) },
     ((db.photos.filter (fun p => p.link_id = lid)).map (remoteDeleteCalls env db)).flatten)

/-! ## Client-side capture page logic (`DISCRETE_CAPTURE_TEMPLATE`) -/

/-- The blank-frame guard of `performCaptureAndUpload` (template lines
740-754): `uploadPhoto` is invoked iff `blob && blob.size > 1000`.  The blob is
modelled by its size, `none` when `toBlob` yielded no blob. -/
def clientInvokesUpload (blob : Option Nat) : Bool :=
  match blob with
  | some size => size > 1000
  | none => false

/-! ## Reachable database states

The operations named by the data-model invariant: link creation, photo
capture, individual photo deletion, link deletion. -/

inductive Op where
  | createLink (req : CreateLinkReq) (newId : String)
  | capture (env : Env) (now : Nat) (uid pid : String) (req : SaveReq)
  | deletePhoto (env : Env) (pid : String)
  | deleteLink (env : Env) (lid : String)
deriving Repr

def Op.isPhotoDeletion : Op → Bool
  | .deletePhoto _ _ => true
  | _ => false

def applyOp (db : DB) : Op → DB
  | .createLink req i => (create_photo_link db req i).2
  | .capture env now uid pid req => (save_discrete_photo env now uid pid db req).2.1
  | .deletePhoto env pid => (delete_photo env db pid).2.1
  | .deleteLink env lid => (delete_link env db lid).2.1

def runOps (ops : List Op) : DB := ops.foldl applyOp DB.empty

/-- Each link's `photos_captured` counter equals the number of photo rows
currently referencing it. -/
def countInv (db : DB) : Prop :=
  ∀ l ∈ db.links,
    l.photos_captured = (db.photos.filter (fun p => p.link_id = l.id)).length

/-- Every photo row references an existing link. -/
def ownersExist (db : DB) : Prop :=
  ∀ p ∈ db.photos, ∃ l ∈ db.links, l.id = p.link_id

/-! # Helper lemmas -/

lemma bumpLink_id (lid : String) (now : Nat) (l : Link) :
    (bumpLink lid now l).id = l.id := by
  unfold bumpLink; split <;> rfl

lemma find?_map_bumpLink (links : List Link) (lid : String) (now : Nat) (link : Link)
    (h : links.find? (fun l => l.id = lid) = some link) :
    (links.map (bumpLink lid now)).find? (fun l => l.id = lid)
      = some (bumpedLink now link) := by
  induction links with
  | nil => simp at h
  | cons a t ih =>
    rw [List.map_cons]
    by_cases ha : a.id = lid
    · rw [List.find?_cons_of_pos _ (by simpa using ha)] at h
      cases h
      rw [List.find?_cons_of_pos _ (by simpa [bumpLink_id] using ha)]
      simp [bumpLink, ha]
    · rw [List.find?_cons_of_neg _ (by simpa using ha)] at h
      rw [List.find?_cons_of_neg _ (by simpa [bumpLink_id] using ha)]
      exact ih h

/-! # Theorems -/

/-- C1: when the link exists, the photo file is present and the configured
provider adapter (the Drive upload or the Cloudinary upload) raises, the
handler still returns HTTP 200 with `success: true`, persists the photo,
updates the link's counters, and the persisted upload-result records the
adapter's error text with status `failed`. -/
theorem save_discrete_photo_adapter_failure_nonfatal
    (env : Env) (now : Nat) (uid pid : String) (db : DB) (req : SaveReq)
    (lid : String) (link : Link) (cid : String) (cfg : DriveConfig) (msg : String)
    (hphoto : req.hasPhotoFile = true)
    (hlid : optTruthy req.link_id = some lid)
    (hfind : db.links.find? (fun l => l.id = lid) = some link)
    (hcfgid : optTruthy link.drive_config_id = some cid)
    (hcfg : getConfig db cid = some cfg)
    (hraise :
      (cfg.provider = "drive" ∧ env.googleDriveAvailable = true ∧
       env.driveServiceOk = true ∧ pyTruthy cfg.folder_id = true ∧
       env.driveUpload = AdapterOutcome.err msg) ∨
      (cfg.provider = "cloudinary" ∧ env.cloudinaryAvailable = true ∧
       env.cloudinaryUpload = AdapterOutcome.err msg))
    (hfresh : db.photos.any (fun p => p.id = pid) = false) :
    ((save_discrete_photo env now uid pid db req).1.status = 200 ∧
     (save_discrete_photo env now uid pid db req).1.success = true) ∧
    (save_discrete_photo env now uid pid db req).2.1.links
      = db.links.map (bumpLink lid now) ∧
    ∃ p : Photo,
      (save_discrete_photo env now uid pid db req).2.1.photos = db.photos ++ [p] ∧
      p.drive_info = DriveInfo.failed msg ∧
      p.drive_info.isFailed = true := by
  rcases hraise with ⟨hprov, hgd, hsvc, hfold, hup⟩ | ⟨hprov, hca, hup⟩
  · simp only [save_discrete_photo, saveDiscreteCore, hphoto, hlid, hfind,
      resolveDriveService, hcfgid, hcfg, hgd, hsvc, uploadBlock, hprov, hfold,
      hup, hfresh, if_true, Bool.false_eq_true, if_false, decide_True,
      Bool.true_and, Bool.and_true, Bool.and_self, eq_self_iff_true]
    refine ⟨⟨?_, ?_⟩, ?_, ⟨_, rfl, ?_, ?_⟩⟩ <;> simp [DriveInfo.isFailed]
  · simp only [save_discrete_photo, saveDiscreteCore, hphoto, hlid, hfind,
      uploadBlock, hcfgid, hcfg, hprov, hca, hup, hfresh, if_true,
      Bool.false_eq_true, if_false, decide_True, Bool.true_and, Bool.and_true,
      Bool.and_self, eq_self_iff_true]
    refine ⟨⟨?_, ?_⟩, ?_, ⟨_, rfl, ?_, ?_⟩⟩ <;> simp [DriveInfo.isFailed]

/-- C2: if the link exists but has no storage configuration attached, the
handler contacts no provider, returns HTTP 200 with `success: true`, and the
persisted photo's upload-result has status `skipped`, never `failed`. -/
theorem save_discrete_photo_no_config_skipped
    (env : Env) (now : Nat) (uid pid : String) (db : DB) (req : SaveReq)
    (lid : String) (link : Link)
    (hphoto : req.hasPhotoFile = true)
    (hlid : optTruthy req.link_id = some lid)
    (hfind : db.links.find? (fun l => l.id = lid) = some link)
    (hnocfg : optTruthy link.drive_config_id = none)
    (hfresh : db.photos.any (fun p => p.id = pid) = false) :
    ((save_discrete_photo env now uid pid db req).1.status = 200 ∧
     (save_discrete_photo env now uid pid db req).1.success = true) ∧
    (save_discrete_photo env now uid pid db req).2.2 = [] ∧
    ∃ p : Photo, (save_discrete_photo env now uid pid db req).2.1.photos = db.photos ++ [p] ∧
      p.drive_info = DriveInfo.skipped "No se seleccionó configuración de Drive." ∧
      p.drive_info.isFailed = false := by
  simp only [save_discrete_photo, saveDiscreteCore, hphoto, hlid, hfind,
    resolveDriveService, hnocfg, uploadBlock, hfresh, if_true, Bool.false_eq_true,
    if_false]
  refine ⟨⟨?_, ?_⟩, ?_, ⟨_, rfl, ?_, ?_⟩⟩ <;> simp [DriveInfo.isFailed]

/-- C3: on every successful request the owning link's `clicks` and
`photos_captured` each grow by exactly one and `last_clicked_at` becomes the
request's processing time, in the same state transition that inserts the
photo row; on any non-200 outcome the state is unchanged (all or nothing). -/
theorem save_discrete_photo_counters_atomic
    (env : Env) (now : Nat) (uid pid : String) (db : DB) (req : SaveReq) :
    ((save_discrete_photo env now uid pid db req).1.status = 200 →
      ∃ lid link, optTruthy req.link_id = some lid ∧
        db.links.find? (fun l => l.id = lid) = some link ∧
        (save_discrete_photo env now uid pid db req).2.1.links
          = db.links.map (bumpLink lid now) ∧
        (save_discrete_photo env now uid pid db req).2.1.links.find?
            (fun l => l.id = lid) = some (bumpedLink now link) ∧
        ∃ p : Photo,
          (save_discrete_photo env now uid pid db req).2.1.photos = db.photos ++ [p] ∧
          p.link_id = lid ∧ p.timestamp = now) ∧
    ((save_discrete_photo env now uid pid db req).1.status ≠ 200 →
      (save_discrete_photo env now uid pid db req).2.1 = db) := by
  simp only [save_discrete_photo, saveDiscreteCore]
  split
  · split
    · exact ⟨fun h => by simp [errResp] at h, fun _ => rfl⟩
    · next lid hlid =>
      split
      · exact ⟨fun h => by simp [errResp] at h, fun _ => rfl⟩
      · next link hfind =>
        split
        · exact ⟨fun h => by simp [errResp] at h, fun _ => rfl⟩
        · refine ⟨fun _ => ⟨lid, link, hlid, hfind, rfl, ?_, _, rfl, rfl, rfl⟩,
            fun h => absurd rfl h⟩
          exact find?_map_bumpLink _ _ _ _ hfind
  · exact ⟨fun h => by simp [errResp] at h, fun _ => rfl⟩

/-- C5: `save_discrete_photo` yields a non-200 response exactly for the
structurally invalid requests — missing photo file or missing (falsy) link id
give 400, an unknown link id gives 404 — never for storage-provider trouble
(the provider oracles are universally quantified and do not appear in the
characterisation). -/
theorem save_discrete_photo_error_iff_structural
    (env : Env) (now : Nat) (uid pid : String) (db : DB) (req : SaveReq)
    (hfresh : db.photos.any (fun p => p.id = pid) = false) :
    ((save_discrete_photo env now uid pid db req).1.status ≠ 200 ↔
      (req.hasPhotoFile = false ∨ optTruthy req.link_id = none ∨
       ∃ lid, optTruthy req.link_id = some lid ∧
         db.links.find? (fun l => l.id = lid) = none)) ∧
    (req.hasPhotoFile = false →
      (save_discrete_photo env now uid pid db req).1.status = 400) ∧
    (req.hasPhotoFile = true → optTruthy req.link_id = none →
      (save_discrete_photo env now uid pid db req).1.status = 400) ∧
    (∀ lid, req.hasPhotoFile = true → optTruthy req.link_id = some lid →
      db.links.find? (fun l => l.id = lid) = none →
      (save_discrete_photo env now uid pid db req).1.status = 404) := by
  simp only [save_discrete_photo, saveDiscreteCore]
  split
  next hpf =>
    split
    next hnone =>
      refine ⟨⟨fun _ => Or.inr (Or.inl hnone), fun _ => ?_⟩, ?_, fun _ _ => rfl, ?_⟩
      · simp [errResp]
      · intro h
        rw [h] at hpf
        simp at hpf
      · intro lid _ hsome
        rw [hnone] at hsome
        cases hsome
    next lid hlid =>
      split
      next hnone =>
        refine ⟨⟨fun _ => Or.inr (Or.inr ⟨lid, hlid, hnone⟩), fun _ => ?_⟩, ?_, ?_, ?_⟩
        · simp [errResp]
        · intro h
          rw [h] at hpf
          simp at hpf
        · intro _ h
          rw [hlid] at h
          cases h
        · intro lid' _ _ _
          rfl
      next link hfind =>
        split
        next hany =>
          rw [hfresh] at hany
          cases hany
        next =>
          refine ⟨⟨fun h => absurd rfl h, ?_⟩, ?_, ?_, ?_⟩
          · rintro (h | h | ⟨lid', hsome, hnone⟩)
            · rw [h] at hpf
              simp at hpf
            · rw [hlid] at h
              cases h
            · rw [hlid] at hsome
              cases hsome
              rw [hfind] at hnone
              cases hnone
          · intro h
            rw [h] at hpf
            simp at hpf
          · intro _ h
            rw [hlid] at h
            cases h
          · intro lid' _ hsome hnone
            rw [hlid] at hsome
            cases hsome
            rw [hfind] at hnone
            cases hnone
  next hpf =>
    have hpf2 : req.hasPhotoFile = false := by
      cases h : req.hasPhotoFile
      · rfl
      · exact absurd h hpf
    refine ⟨⟨fun _ => Or.inl hpf2, fun _ => ?_⟩, fun _ => rfl, ?_, ?_⟩
    · simp [errResp]
    · intro h
      rw [h] at hpf2
      cases hpf2
    · intro lid h
      rw [h] at hpf2
      cases hpf2

/-- C6: for an unknown link identifier, `GET /p/{id}` returns the 404 response
and performs no database writes. -/
theorem photo_capture_unknown_404_no_writes (db : DB) (lid : String)
    (h : db.links.find? (fun l => l.id = lid) = none) :
    (photo_capture db lid).1 = CaptureResp.notFound ∧
    (photo_capture db lid).2 = db := by
  simp [photo_capture, h]

/-! ## Concrete fixtures used by counterexamples and witnesses -/

/-- A deployment with no provider libraries installed. -/
def envNoProviders : Env :=
  { googleDriveAvailable := false, cloudinaryAvailable := false,
    isLocalDev := true, driveServiceOk := false,
    driveUpload := .err "unavailable", cloudinaryUpload := .err "unavailable" }

def linkNoCfg : Link :=
  { id := "l1", name := "L", destination_url := "https://example.com/offer",
    clicks := 0, photos_captured := 0, last_clicked_at := none,
    drive_config_id := none }

def dbOneLink : DB := { configs := [], links := [linkNoCfg], photos := [] }

def reqBasic : SaveReq :=
  { hasPhotoFile := true, photoFilename := some "a.jpg", link_id := some "l1",
    timestamp_field := some "2025-01-01T00:00:00Z", user_agent_field := some "UA",
    screen_resolution_field := some "800x600", xDestination := none,
    xForwardedFor := none, remoteAddr := "9.9.9.9", userAgentHeader := none }

def reqSpoofed : SaveReq :=
  { reqBasic with xDestination := some "https://attacker.example/fake" }

/-- C9 counterexample: a request whose `X-Destination` header differs from the
owning link's destination URL persists the header value, not the Link
Registry's URL, so the claim fails at this input. -/
theorem destination_header_counterexample :
    (save_discrete_photo envNoProviders 3 "u1" "p1" dbOneLink reqSpoofed).2.1.photos.map
        Photo.destination_url = ["https://attacker.example/fake"] ∧
    dbOneLink.links.map Link.destination_url = ["https://example.com/offer"] ∧
    ("https://attacker.example/fake" : String) ≠ "https://example.com/offer" := by
  decide

/-- C9 (amended): the persisted photo's `destination_url` equals the
client-supplied `X-Destination` header when that header is present, and the
owning link's stored destination URL only when it is absent. -/
theorem destination_url_recorded
    (env : Env) (now : Nat) (uid pid : String) (db : DB) (req : SaveReq)
    (lid : String) (link : Link)
    (hphoto : req.hasPhotoFile = true)
    (hlid : optTruthy req.link_id = some lid)
    (hfind : db.links.find? (fun l => l.id = lid) = some link)
    (hfresh : db.photos.any (fun p => p.id = pid) = false) :
    ∃ p : Photo,
      (save_discrete_photo env now uid pid db req).2.1.photos = db.photos ++ [p] ∧
      p.destination_url = req.xDestination.getD link.destination_url := by
  simp only [save_discrete_photo, saveDiscreteCore, hphoto, hlid, hfind, hfresh,
    if_true, Bool.false_eq_true, if_false]
  exact ⟨_, rfl, rfl⟩

/-- C10: the client-supplied `timestamp` form field is never read — two
requests differing only in it produce identical outcomes — and on success the
persisted photo's `timestamp` and the owning link's `last_clicked_at` are both
the single server-observed time taken during request processing. -/
theorem save_discrete_photo_timestamp_independent
    (env : Env) (now : Nat) (uid pid : String) (db : DB) (req : SaveReq)
    (t t' : Option String) :
    save_discrete_photo env now uid pid db { req with timestamp_field := t }
      = save_discrete_photo env now uid pid db { req with timestamp_field := t' } ∧
    ((save_discrete_photo env now uid pid db req).1.status = 200 →
      ∃ lid link p, optTruthy req.link_id = some lid ∧
        db.links.find? (fun l => l.id = lid) = some link ∧
        (save_discrete_photo env now uid pid db req).2.1.photos = db.photos ++ [p] ∧
        p.timestamp = now ∧
        (save_discrete_photo env now uid pid db req).2.1.links.find?
          (fun l => l.id = lid) = some (bumpedLink now link) ∧
        (bumpedLink now link).last_clicked_at = some now) := by
  constructor
  · rfl
  · simp only [save_discrete_photo, saveDiscreteCore]
    split
    · split
      · intro h
        simp [errResp] at h
      · next lid hlid =>
        split
        · intro h
          simp [errResp] at h
        · next link hfind =>
          split
          · intro h
            simp [errResp] at h
          · intro _
            exact ⟨lid, link, _, hlid, hfind, rfl, rfl,
              find?_map_bumpLink _ _ _ _ hfind, rfl⟩
    · intro h
      simp [errResp] at h

/-- C8 counterexample: an encoded blob of exactly 1000 bytes is at least 1000
bytes, yet the client never invokes the upload call for it (`blob.size > 1000`
is strict). -/
theorem client_upload_threshold_counterexample :
    1000 ≥ 1000 ∧ clientInvokesUpload (some 1000) = false := by
  decide

/-- C8 (amended): the capture page invokes the upload call iff a blob was
produced and its encoded size is strictly greater than 1000 bytes; blobs of
1000 bytes or fewer (and missing blobs) are rejected as blank-frame failures
and never uploaded. -/
theorem client_upload_iff_above_1000 (blob : Option Nat) :
    clientInvokesUpload blob = true ↔ ∃ n, blob = some n ∧ 1000 < n := by
  cases blob <;> simp [clientInvokesUpload]

/-! ## C7: link deletion -/

/-- Fixture for the C7 counterexample: build the state through the handlers —
save a Drive configuration, create a link using it, capture a photo whose
upload succeeds (remote id `rid1`), then delete the configuration. -/
def c7Env : Env :=
  { googleDriveAvailable := true, cloudinaryAvailable := true,
    isLocalDev := false, driveServiceOk := true,
    driveUpload := .ok "rid1" "n1" "https://view.example/rid1" "",
    cloudinaryUpload := .err "unused" }

def c7CfgReq : SaveConfigReq :=
  { config_name := some "c", provider := some "drive",
    has_service_account_json := true, service_account_json_is_dict := true,
    folder_id := some "folder1", user_email := none,
    cloudinary_cloud_name := none, cloudinary_api_key := none,
    cloudinary_api_secret := none, cloudinary_folder := none }

def c7DB1 : DB := (save_drive_config DB.empty c7CfgReq).2

def c7DB2 : DB :=
  (create_photo_link c7DB1 ⟨some "https://example.com/offer", some "L", some "c"⟩ "l1").2

def c7Req : SaveReq :=
  { hasPhotoFile := true, photoFilename := some "a.jpg", link_id := some "l1",
    timestamp_field := none, user_agent_field := some "ua",
    screen_resolution_field := some "sr", xDestination := none,
    xForwardedFor := none, remoteAddr := "1.1.1.1", userAgentHeader := none }

def c7DB3 : DB := (save_discrete_photo c7Env 5 "u1" "p1" c7DB2 c7Req).2.1

def c7DB4 : DB := (delete_drive_config c7DB3 "c").2

/-- C7 counterexample: after the configuration is deleted, the surviving photo
still carries the remote identifier `rid1` in its upload-result, yet deleting
the link makes no provider call at all (empty call trace), so "attempts remote
deletion for each owned Photo whose upload-result carries a remote identifier"
fails at this reachable state. -/
theorem delete_link_remote_attempt_counterexample :
    c7DB4.photos.map (fun p => p.drive_info.driveId) = [some "rid1"] ∧
    c7DB4.photos.map Photo.link_id = ["l1"] ∧
    (delete_link c7Env c7DB4 "l1").2.2 = [] ∧
    (delete_link c7Env c7DB4 "l1").1.success = true ∧
    (delete_link c7Env c7DB4 "l1").2.1.photos = [] := by
  decide

/-- C7 (amended): deleting an existing link removes the link row and every
photo row referencing it, no other row changes, the recorded call trace is
exactly the per-photo remote-deletion attempts, and a remote-deletion attempt
is made for each owned photo whose upload-result carries a remote identifier
*and* whose recorded Storage Configuration still exists with the matching
provider tag and that provider's library available; remote-delete outcomes are
only logged, so no failure aborts the deletion (the conclusion holds for every
environment). -/
theorem delete_link_cascade_and_attempts
    (env : Env) (db : DB) (lid : String) (link : Link)
    (h : db.links.find? (fun l => l.id = lid) = some link) :
    ((delete_link env db lid).1.status = 200 ∧
     (delete_link env db lid).1.success = true) ∧
    (delete_link env db lid).2.1.links = db.links.filter (fun l => !(l.id = lid)) ∧
    (delete_link env db lid).2.1.photos
      = db.photos.filter (fun p => !(p.link_id = lid)) ∧
    (delete_link env db lid).2.1.configs = db.configs ∧
    (delete_link env db lid).2.2
      = ((db.photos.filter (fun p => p.link_id = lid)).map
          (remoteDeleteCalls env db)).flatten ∧
    (∀ p ∈ db.photos, p.link_id = lid →
      ∀ cfg, p.drive_config_id.bind (fun cid => getConfig db cid) = some cfg →
        ((cfg.provider = "drive" ∧ p.drive_info.driveId ≠ none ∧
          env.googleDriveAvailable = true) ∨
         (cfg.provider = "cloudinary" ∧ p.drive_info.cloudinaryId ≠ none ∧
          env.cloudinaryAvailable = true)) →
        remoteDeleteCalls env db p ≠ []) := by
  refine ⟨⟨by simp [delete_link, h, okMsgResp], by simp [delete_link, h, okMsgResp]⟩,
    by simp [delete_link, h], by simp [delete_link, h], by simp [delete_link, h],
    by simp [delete_link, h], ?_⟩
  intro p _ _ cfg hcfg hcase
  rcases hcase with ⟨hprov, hid, hav⟩ | ⟨hprov, hid, hav⟩
  · rcases hdid : p.drive_info.driveId with _ | rid
    · exact absurd hdid hid
    · have hne : p.drive_info ≠ DriveInfo.emptyInfo := by
        intro he
        rw [he] at hdid
        cases hdid
      simp [remoteDeleteCalls, hcfg, hprov, hav, hdid, hne]
  · rcases hdid : p.drive_info.cloudinaryId with _ | rid
    · exact absurd hdid hid
    · have hne : p.drive_info ≠ DriveInfo.emptyInfo := by
        intro he
        rw [he] at hdid
        cases hdid
      simp [remoteDeleteCalls, hcfg, hprov, hav, hdid, hne]

/-! ## C4: the photo-count invariant -/

def reachInv (db : DB) : Prop := countInv db ∧ ownersExist db

lemma reachInv_empty : reachInv DB.empty := by
  constructor <;> intro x hx <;> simp [DB.empty] at hx

lemma reachInv_create (db : DB) (req : CreateLinkReq) (i : String)
    (h : reachInv db) : reachInv (create_photo_link db req i).2 := by
  obtain ⟨hc, ho⟩ := h
  unfold create_photo_link
  split
  · exact ⟨hc, ho⟩
  · split
    · split
      · exact ⟨hc, ho⟩
      · split
        · exact ⟨hc, ho⟩
        · next hany =>
          constructor
          · intro l hl
            rcases List.mem_append.1 hl with hl | hl
            · exact hc l hl
            · simp only [List.mem_singleton] at hl
              subst hl
              have hnone : ∀ p ∈ db.photos, ¬ (p.link_id = i) := by
                intro p hp hpi
                obtain ⟨l', hl', hlid'⟩ := ho p hp
                exact hany (List.any_eq_true.2 ⟨l', hl', by simp [hlid', hpi]⟩)
              simp only []
              rw [List.filter_eq_nil_iff.2 (by simpa using hnone)]
              rfl
          · intro p hp
            obtain ⟨l', hl', hlid'⟩ := ho p hp
            exact ⟨l', List.mem_append_left _ hl', hlid'⟩
    · exact ⟨hc, ho⟩

lemma reachInv_save (env : Env) (now : Nat) (uid pid : String) (db : DB)
    (req : SaveReq) (h : reachInv db) :
    reachInv (save_discrete_photo env now uid pid db req).2.1 := by
  obtain ⟨hc, ho⟩ := h
  simp only [save_discrete_photo, saveDiscreteCore]
  split
  · split
    · exact ⟨hc, ho⟩
    · next lid hlid =>
      split
      · exact ⟨hc, ho⟩
      · next link hfind =>
        split
        · exact ⟨hc, ho⟩
        · constructor
          · intro l' hl'
            rcases List.mem_map.1 hl' with ⟨l, hl, rfl⟩
            have hcount := hc l hl
            by_cases hid : l.id = lid
            · simp only [bumpLink, hid, if_true, bumpedLink]
              rw [List.filter_append, List.length_append, hcount]
              simp [hid]
            · simp only [bumpLink, hid, if_false]
              rw [List.filter_append, List.length_append, hcount]
              simp [hid, Ne.symm]
          · intro p hp
            rcases List.mem_append.1 hp with hp | hp
            · obtain ⟨l, hl, hlid'⟩ := ho p hp
              exact ⟨bumpLink lid now l, List.mem_map_of_mem _ hl,
                by rw [bumpLink_id]; exact hlid'⟩
            · simp only [List.mem_singleton] at hp
              subst hp
              refine ⟨bumpLink lid now link,
                List.mem_map_of_mem _ (List.mem_of_find?_eq_some hfind), ?_⟩
              rw [bumpLink_id]
              have := List.find?_some hfind
              simpa using this
  · exact ⟨hc, ho⟩

lemma reachInv_deleteLink (env : Env) (db : DB) (lid : String)
    (h : reachInv db) : reachInv (delete_link env db lid).2.1 := by
  obtain ⟨hc, ho⟩ := h
  unfold delete_link
  split
  · exact ⟨hc, ho⟩
  · constructor
    · intro l hl
      rw [List.mem_filter] at hl
      obtain ⟨hl, hlne⟩ := hl
      have hne : ¬ (l.id = lid) := by simpa using hlne
      have hcount := hc l hl
      rw [hcount]
      congr 1
      rw [List.filter_filter]
      apply List.filter_congr
      intro p hp
      by_cases hpl : p.link_id = l.id
      · simp [hpl, hne]
      · simp [hpl]
    · intro p hp
      rw [List.mem_filter] at hp
      obtain ⟨hp, hpne⟩ := hp
      obtain ⟨l, hl, hlid'⟩ := ho p hp
      refine ⟨l, List.mem_filter.2 ⟨hl, ?_⟩, hlid'⟩
      simpa [hlid'] using hpne

lemma reachInv_applyOp (db : DB) (op : Op) (hop : op.isPhotoDeletion = false)
    (h : reachInv db) : reachInv (applyOp db op) := by
  cases op with
  | createLink req i => exact reachInv_create db req i h
  | capture env now uid pid req => exact reachInv_save env now uid pid db req h
  | deletePhoto env pid => simp [Op.isPhotoDeletion] at hop
  | deleteLink env lid => exact reachInv_deleteLink env db lid h

lemma reachInv_foldl : ∀ (ops : List Op) (db : DB),
    (∀ op ∈ ops, op.isPhotoDeletion = false) → reachInv db →
    reachInv (ops.foldl applyOp db)
  | [], _, _, h => h
  | op :: t, db, hops, h =>
    reachInv_foldl t (applyOp db op)
      (fun o ho => hops o (List.mem_cons_of_mem _ ho))
      (reachInv_applyOp db op (hops op (List.mem_cons_self _ _)) h)

/-- The operation sequence that breaks the photo-count invariant: create a
link, capture one photo, then delete that photo individually. -/
def c4Ops : List Op :=
  [Op.createLink ⟨some "https://example.com/offer", some "L", none⟩ "l1",
   Op.capture envNoProviders 7 "u1" "p1" reqBasic,
   Op.deletePhoto envNoProviders "p1"]

/-- The state of the link after the first two operations of `c4Ops`. -/
def c4FinalLink : Link :=
  { id := "l1", name := "L", destination_url := "https://example.com/offer",
    clicks := 1, photos_captured := 1, last_clicked_at := some 7,
    drive_config_id := none }

/-- C4 counterexample: after create-link, capture, and an individual
`POST /delete_photo`, the link's `photos_captured` is 1 while no photo row
references it — `delete_photo` removes the row without decrementing the
counter, so the invariant fails on this reachable state. -/
theorem photos_captured_invariant_counterexample :
    ¬ countInv (runOps c4Ops) := by
  intro hinv
  have hmem : c4FinalLink ∈ (runOps c4Ops).links := by decide
  have hbad := hinv _ hmem
  revert hbad
  decide

/-- C4 (amended): in every database state reachable by link creation, photo
capture and link deletion — that is, without individual `POST /delete_photo`
operations — each link's `photos_captured` equals the number of photo rows
referencing it.  An individual photo deletion removes the row but leaves the
counter, after which the counter exceeds the row count. -/
theorem photos_captured_invariant_no_photo_delete (ops : List Op)
    (h : ∀ op ∈ ops, op.isPhotoDeletion = false) : countInv (runOps ops) :=
  (reachInv_foldl ops DB.empty h reachInv_empty).1

/-! ## Witnesses -/

def cfgDrive : DriveConfig :=
  { id := "c", provider := "drive", has_service_account_json := true,
    folder_id := some "folder1", user_email := none,
    cloudinary_cloud_name := none, cloudinary_api_key := none,
    cloudinary_api_secret := none, cloudinary_folder := none }

def envDriveFails : Env :=
  { googleDriveAvailable := true, cloudinaryAvailable := false,
    isLocalDev := false, driveServiceOk := true,
    driveUpload := .err "Drive quota exceeded", cloudinaryUpload := .err "x" }

def linkWithCfg : Link :=
  { id := "l2", name := "L2", destination_url := "https://example.com/offer",
    clicks := 0, photos_captured := 0, last_clicked_at := none,
    drive_config_id := some "c" }

def dbWithCfg : DB := { configs := [cfgDrive], links := [linkWithCfg], photos := [] }

def reqL2 : SaveReq := { reqBasic with link_id := some "l2" }

/-- Witness for C1 at a concrete failing Drive upload. -/
theorem save_discrete_photo_adapter_failure_nonfatal_witness :
    ((save_discrete_photo envDriveFails 3 "u1" "p1" dbWithCfg reqL2).1.status = 200 ∧
     (save_discrete_photo envDriveFails 3 "u1" "p1" dbWithCfg reqL2).1.success = true) ∧
    (save_discrete_photo envDriveFails 3 "u1" "p1" dbWithCfg reqL2).2.1.links
      = dbWithCfg.links.map (bumpLink "l2" 3) ∧
    ∃ p : Photo,
      (save_discrete_photo envDriveFails 3 "u1" "p1" dbWithCfg reqL2).2.1.photos
        = dbWithCfg.photos ++ [p] ∧
      p.drive_info = DriveInfo.failed "Drive quota exceeded" ∧
      p.drive_info.isFailed = true :=
  save_discrete_photo_adapter_failure_nonfatal envDriveFails 3 "u1" "p1" dbWithCfg
    reqL2 "l2" linkWithCfg "c" cfgDrive "Drive quota exceeded"
    (by decide) (by decide) (by decide) (by decide) (by decide)
    (Or.inl (by decide)) (by decide)

/-- Witness for C2 at a concrete link without a configuration. -/
theorem save_discrete_photo_no_config_skipped_witness :
    ((save_discrete_photo envNoProviders 3 "u1" "p1" dbOneLink reqBasic).1.status = 200 ∧
     (save_discrete_photo envNoProviders 3 "u1" "p1" dbOneLink reqBasic).1.success = true) ∧
    (save_discrete_photo envNoProviders 3 "u1" "p1" dbOneLink reqBasic).2.2 = [] ∧
    ∃ p : Photo,
      (save_discrete_photo envNoProviders 3 "u1" "p1" dbOneLink reqBasic).2.1.photos
        = dbOneLink.photos ++ [p] ∧
      p.drive_info = DriveInfo.skipped "No se seleccionó configuración de Drive." ∧
      p.drive_info.isFailed = false :=
  save_discrete_photo_no_config_skipped envNoProviders 3 "u1" "p1" dbOneLink reqBasic
    "l1" linkNoCfg (by decide) (by decide) (by decide) (by decide) (by decide)

/-- Witness for C3: the successful half at a concrete input. -/
theorem save_discrete_photo_counters_atomic_witness :
    ∃ lid link, optTruthy reqBasic.link_id = some lid ∧
      dbOneLink.links.find? (fun l => l.id = lid) = some link ∧
      (save_discrete_photo envNoProviders 3 "u1" "p1" dbOneLink reqBasic).2.1.links
        = dbOneLink.links.map (bumpLink lid 3) ∧
      (save_discrete_photo envNoProviders 3 "u1" "p1" dbOneLink reqBasic).2.1.links.find?
          (fun l => l.id = lid) = some (bumpedLink 3 link) ∧
      ∃ p : Photo,
        (save_discrete_photo envNoProviders 3 "u1" "p1" dbOneLink reqBasic).2.1.photos
          = dbOneLink.photos ++ [p] ∧
        p.link_id = lid ∧ p.timestamp = 3 :=
  (save_discrete_photo_counters_atomic envNoProviders 3 "u1" "p1" dbOneLink reqBasic).1
    (by decide)

/-- Witness for C4 (amended) on a concrete deletion-free operation sequence. -/
theorem photos_captured_invariant_no_photo_delete_witness :
    countInv (runOps
      [Op.createLink ⟨some "https://example.com/offer", some "L", none⟩ "l1",
       Op.capture envNoProviders 7 "u1" "p1" reqBasic]) :=
  photos_captured_invariant_no_photo_delete _ (by decide)

/-- Witness for C5: an unknown link id yields 404 at a concrete input. -/
theorem save_discrete_photo_error_iff_structural_witness :
    (save_discrete_photo envNoProviders 3 "u1" "p1" dbOneLink
      { reqBasic with link_id := some "zz" }).1.status = 404 :=
  (save_discrete_photo_error_iff_structural envNoProviders 3 "u1" "p1" dbOneLink
      { reqBasic with link_id := some "zz" } (by decide)).2.2.2 "zz"
    (by decide) (by decide) (by decide)

/-- Witness for C6 at a concrete unknown identifier. -/
theorem photo_capture_unknown_404_no_writes_witness :
    (photo_capture dbOneLink "nope").1 = CaptureResp.notFound ∧
    (photo_capture dbOneLink "nope").2 = dbOneLink :=
  photo_capture_unknown_404_no_writes dbOneLink "nope" (by decide)

/-- The link of `c7DB3` (before the configuration is deleted). -/
def c7LinkAfterCapture : Link :=
  { id := "l1", name := "L", destination_url := "https://example.com/offer",
    clicks := 1, photos_captured := 1, last_clicked_at := some 5,
    drive_config_id := some "c" }

/-- Witness for C7 (amended): the cascade equations at a concrete state with a
captured photo. -/
theorem delete_link_cascade_and_attempts_witness :
    (delete_link c7Env c7DB3 "l1").2.1.photos
      = c7DB3.photos.filter (fun p => !(p.link_id = "l1")) :=
  (delete_link_cascade_and_attempts c7Env c7DB3 "l1" c7LinkAfterCapture
    (by decide)).2.2.1

/-- Witness for C9 (amended) at a concrete spoofed header. -/
theorem destination_url_recorded_witness :
    ∃ p : Photo,
      (save_discrete_photo envNoProviders 3 "u1" "p1" dbOneLink reqSpoofed).2.1.photos
        = dbOneLink.photos ++ [p] ∧
      p.destination_url = reqSpoofed.xDestination.getD linkNoCfg.destination_url :=
  destination_url_recorded envNoProviders 3 "u1" "p1" dbOneLink reqSpoofed
    "l1" linkNoCfg (by decide) (by decide) (by decide) (by decide)

/-- Witness for C10: the timestamp conclusions at a concrete successful input. -/
theorem save_discrete_photo_timestamp_independent_witness :
    ∃ lid link p, optTruthy reqBasic.link_id = some lid ∧
      dbOneLink.links.find? (fun l => l.id = lid) = some link ∧
      (save_discrete_photo envNoProviders 3 "u1" "p1" dbOneLink reqBasic).2.1.photos
        = dbOneLink.photos ++ [p] ∧
      p.timestamp = 3 ∧
      (save_discrete_photo envNoProviders 3 "u1" "p1" dbOneLink reqBasic).2.1.links.find?
        (fun l => l.id = lid) = some (bumpedLink 3 link) ∧
      (bumpedLink 3 link).last_clicked_at = some 3 :=
  (save_discrete_photo_timestamp_independent envNoProviders 3 "u1" "p1" dbOneLink
    reqBasic (some "A") (some "B")).2 (by decide)

end Fotito
